import Mathlib

/-!
Verification of the command-execution orchestrator of the claude-code-telegram
repository (`src/claude/facade.py`) against its natural-language specification.

The Python code is shallowly embedded: Python strings are Lean `String`s
(sequences of code points), Python string operations (`in`, `split`, `join`,
`startswith`, truthiness) are modelled by executable helpers below, exceptions
are modelled by `Except` / an explicit error component, and the mutable
`nonlocal` state of the streaming callback is threaded explicitly as a
`ValState` value.  External collaborators that are not part of the orchestrator
(the session store, the tool monitor, the two backend managers, the caller's
stream handler) are parameters of the embedded functions.
-/

/-! ## Python string primitives -/

/-- Python's substring test `sub in s` (membership of `sub` as a contiguous
substring of `s`), computed on the underlying code-point lists. -/
def pyIn (sub s : String) : Bool :=
  decide (sub.toList <:+: s.toList)

/-- Fuelled core of Python's `s.split(sep)` on code-point lists: splits on
every non-overlapping occurrence of `sep`, scanning left to right.  The fuel
only bounds the recursion depth (one unit per consumed character suffices);
it is structural so that the kernel can evaluate closed instances. -/
def pySplitFuel (sep : List Char) : Nat → List Char → List (List Char)
  | _, [] => [[]]
  | 0, l => [l]
  | fuel + 1, c :: rest =>
    if !sep.isEmpty && sep.isPrefixOf (c :: rest) then
      [] :: pySplitFuel sep fuel (rest.drop (sep.length - 1))
    else
      match pySplitFuel sep fuel rest with
      | [] => [[c]]
      | s :: ss => (c :: s) :: ss

/-- Python's `s.split(sep)` on code-point lists.  (Python raises on an empty
separator; the orchestrator only ever splits on a fixed non-empty marker, and
an empty separator here performs no split.) -/
def pySplitList (sep l : List Char) : List (List Char) :=
  pySplitFuel sep l.length l

/-- Python's `s.split(sep)`. -/
def pySplit (s sep : String) : List String :=
  (pySplitList sep.toList s.toList).map (fun l => String.mk l)

/-- Python's `sep.join(parts)`. -/
def pyJoin (sep : String) : List String → String
  | [] => ""
  | [x] => x
  | x :: y :: rest => x ++ sep ++ pyJoin sep (y :: rest)

/-- Python truthiness of an optional string (`None` and `""` are falsy). -/
def pyTruthy : Option String → Bool
  | none => false
  | some s => s != ""

/-- Python's `s.startswith(pre)`, computed on the underlying code-point
lists. -/
def pyStartsWith (pre s : String) : Bool :=
  pre.toList.isPrefixOf s.toList

/-- Python's `list(dict.fromkeys(l))`: removes duplicates while keeping the
first occurrence of every element, preserving order of first occurrences
(later occurrences are filtered out of the recursively deduplicated tail). -/
def pyDedup : List String → List String
  | [] => []
  | x :: xs => x :: (pyDedup xs).filter (fun y => y ≠ x)

/-- Python's `set.add` on a set of strings; the set is modelled as a
duplicate-free list in insertion order. -/
def pySetAdd (l : List String) (x : String) : List String :=
  if x ∈ l then l else l ++ [x]

/-! ## Data model -/

/-- A tool invocation streamed back by the engine (`update.tool_calls`
entries in `facade.py`): a name and an opaque input mapping. -/
structure ToolCall where
  name : String
  input : List (String × String)
deriving Repr, DecidableEq

/-- A streamed update (`StreamUpdate` consumed by the wrapped handler);
only its `tool_calls` field is inspected by the orchestrator. -/
structure StreamUpdate where
  tool_calls : List ToolCall
deriving Repr, DecidableEq

/-- Modelled from the spec (§3): the `ClaudeResponse` dataclass of the backend
managers is not under `src/`; the spec gives its fields
`{content, sessionId, cost, durationMs, numTurns, isError, errorType}`. -/
structure ClaudeResponse where
  content : String
  session_id : String
  cost : Nat
  duration_ms : Nat
  num_turns : Nat
  is_error : Bool
  error_type : Option String
deriving Repr, DecidableEq

/-- Modelled from the spec (§3): the session record of the Session Store
(`session.py` is not under `src/`): `{id, userId, projectPath, createdAt,
lastUsed, totalCost, messageCount, toolsUsed, isNewSession}`. -/
structure Session where
  session_id : String
  user_id : Int
  project_path : String
  created_at : Nat
  last_used : Nat
  total_cost : Nat
  message_count : Nat
  tools_used : List String
  is_new_session : Bool
deriving Repr, DecidableEq

/-- Modelled from the spec (§3, Glossary): a placeholder session id is the
locally fabricated temporary id; per the source's `continue_session` filter
(`facade.py` line 343) placeholders carry the `temp_` prefix. -/
def isPlaceholder (id : String) : Bool :=
  pyStartsWith "temp_" id

/-- Modelled from the spec (§3): `isNewSession=true` iff the session currently
holds a placeholder id. -/
def SessionWF (s : Session) : Prop :=
  s.is_new_session = isPlaceholder s.session_id

/-- A Python exception as observed by the orchestrator.  `toolValidation` is
`ClaudeToolValidationError(message, blocked_tools, allowed_tools)`;
`indexError` models a list-index failure; `other` is any other exception,
identified by its text. -/
inductive PyError where
  | toolValidation (msg : String) (blocked_tools : List String)
      (allowed_tools : List String)
  | indexError
  | other (msg : String)
deriving Repr, DecidableEq

/-- Python's `str(e)` as used for error classification in
`_execute_with_fallback` (a `ClaudeToolValidationError` stringifies to its
message, the first constructor argument). -/
def errString : PyError → String
  | .toolValidation msg _ _ => msg
  | .indexError => "list index out of range"
  | .other msg => msg

/-- The configuration surface consumed by the orchestrator
(`Settings` in `src/config/settings.py`). -/
structure Settings where
  use_sdk : Bool
  claude_allowed_tools : Option (List String)
deriving Repr

/-- The nonlocal mutable state captured by the streaming callback in
`run_command` (`facade.py` lines 74-76): `tools_validated`,
`validation_errors`, and the `blocked_tools` set (modelled as a
duplicate-free list in insertion order). -/
structure ValState where
  tools_validated : Bool
  validation_errors : List String
  blocked_tools : List String
deriving Repr, DecidableEq

/-- Fresh per-call validation state (`facade.py` lines 74-76). -/
def initialValState : ValState :=
  { tools_validated := true, validation_errors := [], blocked_tools := [] }

/-- The external Tool-Call Validator
(`tool_monitor.validate_tool_call(tool_name, input, working_directory,
user_id) -> (ok, reason)`). -/
def ToolValidator : Type :=
  String → List (String × String) → String → Int → Bool × String

/-- The caller-supplied stream handler; it either returns or raises
(an arbitrary exception, identified by its text). -/
def OnStreamCb : Type :=
  StreamUpdate → Except String Unit

/-- One backend execution as observed by the orchestrator: the updates the
backend streams through the callback, in emission order, followed by its
completion (a response or a raised error). -/
structure BackendRun where
  updates : List StreamUpdate
  outcome : Except PyError ClaudeResponse

/-- A backend channel: its behaviour as a function of the semantic request
parameters forwarded by the orchestrator (`session_id`, `continue_session`);
the prompt, working directory and model are fixed for the call and absorbed. -/
def Backend : Type :=
  Option String → Bool → BackendRun

/-- Call-scoped context captured by the wrapped streaming callback:
configuration, validator, working directory, user id, and whether the `.env`
settings file exists (observed by `_get_admin_instructions`). -/
structure CallCtx where
  cfg : Settings
  validator : ToolValidator
  working_directory : String
  user_id : Int
  env_file_exists : Bool

/-! ## Remediation-message composition (`facade.py` lines 414-511) -/

/-- The built-in tool list hardcoded as `current_tools` in
`_get_admin_instructions` (`facade.py` lines 423-439); it coincides with the
default of `claude_allowed_tools` in `src/config/settings.py`. -/
def current_tools : List String :=
  ["Read", "Write", "Edit", "Bash", "Glob", "Grep", "LS", "Task", "MultiEdit",
   "NotebookRead", "NotebookEdit", "WebFetch", "TodoRead", "TodoWrite",
   "WebSearch"]

/-- `merged_tools = list(dict.fromkeys(current_tools + blocked_tools))`
(`facade.py` lines 440-442). -/
def merged_tools (blocked_tools : List String) : List String :=
  pyDedup (current_tools ++ blocked_tools)

/-- `_get_admin_instructions` (`facade.py` lines 414-473); `env_exists` models
`Path(".env").exists()`. -/
def get_admin_instructions (env_exists : Bool) (blocked_tools : List String) :
    String :=
  if blocked_tools ≠ [] then
    let merged := merged_tools blocked_tools
    let merged_tools_str := pyJoin "," merged
    let merged_tools_py := pyJoin ", " (merged.map (fun tool => "\"" ++ tool ++ "\""))
    let env_part :=
      if env_exists then
        ["To enable these tools, add them to your `.env` file:",
         "```",
         "CLAUDE_ALLOWED_TOOLS=\"" ++ merged_tools_str ++ "\"",
         "```"]
      else
        ["To enable these tools:",
         "1. Create a `.env` file in your project root",
         "2. Add the following line:",
         "```",
         "CLAUDE_ALLOWED_TOOLS=\"" ++ merged_tools_str ++ "\"",
         "```"]
    pyJoin "\n"
      (["**For Administrators:**", ""] ++ env_part ++
       ["",
        "Or modify the default in `src/config/settings.py`:",
        "```python",
        "claude_allowed_tools: Optional[List[str]] = Field(",
        "    default=[" ++ merged_tools_py ++ "],",
        "    description=\"List of allowed Claude tools\",",
        ")"])
  else
    pyJoin "\n" []

/-- `_create_tool_error_message` (`facade.py` lines 475-511), the message of a
critical-tool validation error. -/
def create_tool_error_message (blocked_tools allowed_tools : List String)
    (admin_instructions : String) : String :=
  let tool_list := pyJoin ", " (blocked_tools.map (fun tool => "`" ++ tool ++ "`"))
  let allowed_list :=
    if allowed_tools ≠ [] then
      pyJoin ", " (allowed_tools.map (fun tool => "`" ++ tool ++ "`"))
    else "None"
  pyJoin "\n"
    ["ðŸš« **Tool Access Blocked**",
     "",
     "Claude tried to use tools that are not currently allowed:",
     tool_list,
     "",
     "**Why this happened:**",
     "â€¢ Claude needs these tools to complete your request",
     "â€¢ These tools are not in the allowed tools list",
     "â€¢ This is a security feature to control what Claude can do",
     "",
     "**What you can do:**",
     "â€¢ Contact the administrator to request access to these tools",
     "â€¢ Try rephrasing your request to use different approaches",
     "â€¢ Use simpler requests that don\x27t require these tools",
     "",
     "**Currently allowed tools:**",
     allowed_list,
     "",
     admin_instructions]

/-- The deferred-denial remediation content composed inline in `run_command`
(`facade.py` lines 185-196) when blocked tool names were extracted. -/
def blocked_tools_message (blocked_tools allowed_tools : List String) : String :=
  let tool_list := pyJoin ", " (blocked_tools.map (fun tool => "`" ++ tool ++ "`"))
  "ðŸš« **Tool Access Blocked**\n\n" ++
  "Claude tried to use tools not allowed:\n" ++
  tool_list ++ "\n\n" ++
  "**What you can do:**\n" ++
  "â€¢ Contact the administrator to request access to these tools\n" ++
  "â€¢ Try rephrasing your request to use different approaches\n" ++
  "â€¢ Check what tools are currently available with `/status`\n\n" ++
  "**Currently allowed tools:**\n" ++
  pyJoin ", " (allowed_tools.map (fun t => "`" ++ t ++ "`"))

/-- The generic validation-failure content composed inline in `run_command`
(`facade.py` lines 198-202) when no blocked tool name was extracted. -/
def generic_validation_message (validation_errors : List String) : String :=
  "ðŸš« **Tool Validation Failed**\n\n" ++
  "Tools failed security validation. Try different approach.\n\n" ++
  "Details: " ++ pyJoin "; " validation_errors

/-! ## Streaming tool-call validation (`facade.py` lines 78-130) -/

/-- The critical set checked in the stream handler (`facade.py` line 108). -/
def critical_tools : List String :=
  ["Task", "Read", "Write", "Edit"]

/-- Validation of one streamed tool call (`facade.py` lines 83-123): thread
the nonlocal state; a denial records the reason, a denial whose reason carries
the allow-list marker records the tool name, and a denial of a critical tool
raises `ClaudeToolValidationError` immediately. -/
def handle_tool_call (ctx : CallCtx) (st : ValState) (tc : ToolCall) :
    ValState × Option PyError :=
  let res := ctx.validator tc.name tc.input ctx.working_directory ctx.user_id
  if res.1 then (st, none)
  else
    let st := { st with tools_validated := false,
                        validation_errors := st.validation_errors ++ [res.2] }
    let st :=
      if pyIn "Tool not allowed:" res.2 then
        { st with blocked_tools := pySetAdd st.blocked_tools tc.name }
      else st
    if tc.name ∈ critical_tools then
      let allowed := ctx.cfg.claude_allowed_tools.getD []
      let admin_instructions := get_admin_instructions ctx.env_file_exists st.blocked_tools
      let error_msg := create_tool_error_message st.blocked_tools allowed admin_instructions
      (st, some (.toolValidation error_msg st.blocked_tools allowed))
    else (st, none)

/-- The validation loop over the tool calls of one update (`facade.py`
lines 82-123), stopping at the first raised error. -/
def run_tool_calls (ctx : CallCtx) : ValState → List ToolCall →
    ValState × Option PyError
  | st, [] => (st, none)
  | st, tc :: rest =>
    match handle_tool_call ctx st tc with
    | (st', none) => run_tool_calls ctx st' rest
    | (st', some e) => (st', some e)

/-- The wrapped streaming callback `stream_handler` (`facade.py` lines 78-130):
validate every tool call of the update, then forward the update to the
caller-supplied handler, whose exceptions are caught and logged
(lines 125-130). -/
def stream_handler (ctx : CallCtx) (on_stream : Option OnStreamCb)
    (st : ValState) (update : StreamUpdate) : ValState × Option PyError :=
  match run_tool_calls ctx st update.tool_calls with
  | (st', some e) => (st', some e)
  | (st', none) =>
    match on_stream with
    | none => (st', none)
    | some f =>
      match f update with
      | .ok _ => (st', none)
      | .error _ => (st', none)

/-- Processing of a backend's streamed updates in emission order through the
wrapped callback, stopping at the first raised error. -/
def run_stream (ctx : CallCtx) (on_stream : Option OnStreamCb) :
    ValState → List StreamUpdate → ValState × Option PyError
  | st, [] => (st, none)
  | st, u :: rest =>
    match stream_handler ctx on_stream st u with
    | (st', none) => run_stream ctx on_stream st' rest
    | (st', some e) => (st', some e)

/-- Modelled from the spec: the backend managers (`sdk_integration.py`,
`integration.py`) are not under `src/`.  Per spec §4.3 and §7 a backend
streams each update through the wrapped callback in emission order and then
completes; an exception raised from inside the callback aborts the in-flight
call and propagates. -/
def run_backend (ctx : CallCtx) (on_stream : Option OnStreamCb)
    (st : ValState) (b : BackendRun) : ValState × Except PyError ClaudeResponse :=
  match run_stream ctx on_stream st b.updates with
  | (st', some e) => (st', .error e)
  | (st', none) => (st', b.outcome)

/-! ## Backend selection and fallback (`facade.py` lines 239-318) -/

/-- The transient-error classification of `_execute_with_fallback`
(`facade.py` lines 268-273): substring match on the error text. -/
def is_transient (error_str : String) : Bool :=
  pyIn "Failed to decode JSON" error_str ||
  pyIn "JSON decode error" error_str ||
  pyIn "TaskGroup" error_str ||
  pyIn "ExceptionGroup" error_str

/-- `_execute_with_fallback` (`facade.py` lines 239-318).  Returns the
validation state and consecutive-failure counter after the call, and the
response or propagated error.  `sdk_manager` is present iff `use_sdk`
(constructor, lines 36-38), so the primary channel is the structured one
exactly when `use_sdk`; both attempts share the same wrapped callback and
therefore the same threaded validation state. -/
def execute_with_fallback (ctx : CallCtx) (on_stream : Option OnStreamCb)
    (session_id : Option String) (continue_session : Bool)
    (sdk proc : Backend) (sdk_failed_count : Nat) (st : ValState) :
    ValState × Nat × Except PyError ClaudeResponse :=
  if ctx.cfg.use_sdk then
    let r1 := run_backend ctx on_stream st (sdk session_id continue_session)
    match r1 with
    | (st1, .ok response) => (st1, 0, .ok response)
    | (st1, .error e) =>
      if is_transient (errString e) then
        let count := sdk_failed_count + 1
        let r2 := run_backend ctx on_stream st1 (proc session_id continue_session)
        match r2 with
        | (st2, .ok response) => (st2, count, .ok response)
        | (st2, .error _) => (st2, count, .error e)
      else (st1, sdk_failed_count, .error e)
  else
    let r1 := run_backend ctx on_stream st (proc session_id continue_session)
    (r1.1, sdk_failed_count, r1.2)

/-! ## Session-identity computation and `run_command` (`facade.py` lines 51-237) -/

/-- `should_continue = bool(session_id) and not getattr(session,
"is_new_session", False)` (`facade.py` lines 145-148). -/
def should_continue (session_id : Option String) (session : Session) : Bool :=
  pyTruthy session_id && !session.is_new_session

/-- `claude_session_id`: the id actually forwarded to the backend, `None` for
new sessions (`facade.py` lines 150-155). -/
def claude_session_id (session : Session) : Option String :=
  if session.is_new_session then none else some session.session_id

/-- The blocked-tool-name extraction loop of `run_command` (`facade.py`
lines 177-181): for every recorded denial reason carrying the marker
`"Tool not allowed:"`, take `error.split("Tool not allowed: ")[1]`;
indexing `[1]` on a split with fewer than two parts raises `IndexError`. -/
def extract_blocked_tools : List String → Except PyError (List String)
  | [] => .ok []
  | error :: rest =>
    if pyIn "Tool not allowed:" error then
      match pySplit error "Tool not allowed: " with
      | _ :: tool_name :: _ =>
        match extract_blocked_tools rest with
        | .ok others => .ok (tool_name :: others)
        | .error e => .error e
      | _ => .error .indexError
    else extract_blocked_tools rest

/-- The post-hoc reconciliation of deferred validation failures into the
response (`facade.py` lines 166-202): when some tool failed validation, mark
the response as `tool_validation_failed` and replace its content with either
the blocked-tools remediation message or the generic validation-failure
message. -/
def apply_validation (cfg : Settings) (st : ValState)
    (response : ClaudeResponse) : Except PyError ClaudeResponse :=
  if st.tools_validated then .ok response
  else
    match extract_blocked_tools st.validation_errors with
    | .error e => .error e
    | .ok blocked_tools =>
      if blocked_tools ≠ [] then
        .ok { response with
              is_error := true,
              error_type := some "tool_validation_failed",
              content := blocked_tools_message blocked_tools
                (cfg.claude_allowed_tools.getD []) }
      else
        .ok { response with
              is_error := true,
              error_type := some "tool_validation_failed",
              content := generic_validation_message st.validation_errors }

/-- `run_command` (`facade.py` lines 51-237).  The session resolved by the
external Session Store (`get_or_create_session`) is the `session` parameter;
the two backend channels are `sdk` and `proc`; `sdk_failed_count` is the
orchestrator's consecutive-failure counter before the call.  Returns the
final validation state, the counter after the call, and the response or the
propagated exception (the `except` clause at lines 230-237 logs and
re-raises unchanged).  The final session-id reconciliation (lines 204-217)
tests `hasattr(session, "is_new_session")` — true for every `Session` of the
data model (§3) — so only the truthiness of `response.session_id` decides
which id is kept.  `update_session` is an external side effect whose result
is unused.  The user's model preference lookup (lines 134-143) only selects
the model forwarded to the backend and is absorbed into the backend
behaviour. -/
def run_command (ctx : CallCtx) (on_stream : Option OnStreamCb)
    (_prompt : String) (session_id : Option String) (session : Session)
    (sdk proc : Backend) (sdk_failed_count : Nat) :
    ValState × Nat × Except PyError ClaudeResponse :=
  let res := execute_with_fallback ctx on_stream
    (claude_session_id session) (should_continue session_id session)
    sdk proc sdk_failed_count initialValState
  match res with
  | (st, count, .error e) => (st, count, .error e)
  | (st, count, .ok response) =>
    match apply_validation ctx.cfg st response with
    | .error e => (st, count, .error e)
    | .ok response' =>
      let old_session_id := session.session_id
      let final_session_id :=
        if response'.session_id != "" then response'.session_id
        else old_session_id
      (st, count, .ok { response' with session_id := final_session_id })

/-! ## `continue_session` (`facade.py` lines 320-360) -/

/-- Python's `max(l, key=key)` over a non-empty list given as head and tail:
keeps the first element attaining the maximal key. -/
def pyMaxBy (key : Session → Nat) : Session → List Session → Session
  | best, [] => best
  | best, s :: rest =>
    if key s > key best then pyMaxBy key s rest else pyMaxBy key best rest

/-- The `matching_sessions` filter of `continue_session` (`facade.py`
lines 339-344): the user's sessions in this working directory, excluding
temporary placeholder sessions (`session_id.startswith("temp_")`). -/
def matching_sessions (working_directory : String) (sessions : List Session) :
    List Session :=
  sessions.filter
    (fun s => s.project_path == working_directory
      && !(pyStartsWith "temp_" s.session_id))

/-- `continue_session` (`facade.py` lines 320-360): filter the user's
sessions (the Session Store's list for `ctx.user_id`, passed as `sessions`)
to the working directory, excluding temporary placeholder ids; return `None`
when nothing matches, otherwise delegate to `run_command` with the id of the
most recently used match.  `resolved` is the session the store returns inside
the delegated `run_command` call. -/
def continue_session (ctx : CallCtx) (on_stream : Option OnStreamCb)
    (prompt : Option String) (sessions : List Session) (resolved : Session)
    (sdk proc : Backend) (sdk_failed_count : Nat) :
    Option (ValState × Nat × Except PyError ClaudeResponse) :=
  let matching := matching_sessions ctx.working_directory sessions
  match matching with
  | [] => none
  | s0 :: ss =>
    let latest := pyMaxBy (fun s => s.last_used) s0 ss
    some (run_command ctx on_stream (prompt.getD "")
      (some latest.session_id) resolved sdk proc sdk_failed_count)

/-! ## Helper lemmas: Python string primitives -/

theorem toList_append (a b : String) : (a ++ b).toList = a.toList ++ b.toList :=
  rfl

theorem mk_toList (s : String) : String.mk s.toList = s :=
  rfl

theorem isPrefixOf_eq_true {l₁ l₂ : List Char} :
    l₁.isPrefixOf l₂ = true ↔ l₁ <+: l₂ := by
  induction l₁ generalizing l₂ with
  | nil => simp [List.isPrefixOf]
  | cons a as ih =>
    cases l₂ with
    | nil => simp [List.isPrefixOf]
    | cons b bs => simp [List.isPrefixOf, List.cons_prefix_cons, ih]

theorem pyIn_eq_true {sub s : String} :
    pyIn sub s = true ↔ sub.toList <:+: s.toList := by
  simp [pyIn]

theorem pyIn_eq_false {sub s : String} :
    pyIn sub s = false ↔ ¬ sub.toList <:+: s.toList := by
  simp [pyIn]

theorem pyInfix_str_left {t : List Char} {a : String} (b : String)
    (h : t <:+: a.toList) : t <:+: (a ++ b).toList := by
  rw [toList_append]
  exact h.trans (List.prefix_append a.toList b.toList).isInfix

theorem pyInfix_str_right {t : List Char} (a : String) {b : String}
    (h : t <:+: b.toList) : t <:+: (a ++ b).toList := by
  rw [toList_append]
  exact h.trans (List.suffix_append a.toList b.toList).isInfix

theorem pyJoin_mem_substring {x : String} {l : List String} (sep : String)
    (h : x ∈ l) : x.toList <:+: (pyJoin sep l).toList := by
  induction l with
  | nil => cases h
  | cons y rest ih =>
    rcases List.mem_cons.mp h with rfl | hmem
    · cases rest with
      | nil => exact List.infix_refl _
      | cons z rest' =>
        exact pyInfix_str_left _ (pyInfix_str_left _ (List.infix_refl _))
    · cases rest with
      | nil => cases hmem
      | cons z rest' => exact pyInfix_str_right _ (ih hmem)

/-! ## Helper lemmas: `pySplit` -/

theorem pySplitFuel_congr (sep : List Char) :
    ∀ (f1 : Nat) {f2 : Nat} {l : List Char}, l.length ≤ f1 → l.length ≤ f2 →
      pySplitFuel sep f1 l = pySplitFuel sep f2 l := by
  intro f1
  induction f1 with
  | zero =>
    intro f2 l h1 _
    have : l = [] := List.eq_nil_of_length_eq_zero (Nat.le_zero.mp h1)
    subst this
    cases f2 <;> rfl
  | succ f1' ih =>
    intro f2 l h1 h2
    cases l with
    | nil => cases f2 <;> rfl
    | cons c rest =>
      cases f2 with
      | zero => simp at h2
      | succ f2' =>
        simp only [List.length_cons, Nat.succ_le_succ_iff] at h1 h2
        show pySplitFuel sep (f1' + 1) (c :: rest) = pySplitFuel sep (f2' + 1) (c :: rest)
        simp only [pySplitFuel]
        by_cases hc : (!sep.isEmpty && sep.isPrefixOf (c :: rest)) = true
        · rw [if_pos hc, if_pos hc]
          have hd : (rest.drop (sep.length - 1)).length ≤ rest.length := by
            simp only [List.length_drop]
            omega
          rw [ih (Nat.le_trans hd h1) (Nat.le_trans hd h2)]
        · rw [if_neg hc, if_neg hc, ih h1 h2]

theorem pySplitList_cons (sep : List Char) (c : Char) (rest : List Char) :
    pySplitList sep (c :: rest) =
      if !sep.isEmpty && sep.isPrefixOf (c :: rest) then
        [] :: pySplitList sep (rest.drop (sep.length - 1))
      else
        match pySplitList sep rest with
        | [] => [[c]]
        | s :: ss => (c :: s) :: ss := by
  show pySplitFuel sep (rest.length + 1) (c :: rest) = _
  simp only [pySplitFuel]
  by_cases hc : (!sep.isEmpty && sep.isPrefixOf (c :: rest)) = true
  · rw [if_pos hc, if_pos hc]
    have hd : (rest.drop (sep.length - 1)).length ≤ rest.length := by
      simp only [List.length_drop]
      omega
    rw [pySplitFuel_congr sep rest.length hd (Nat.le_refl _)]
    rfl
  · rw [if_neg hc, if_neg hc]
    rfl

theorem pySplitList_eq_single {sep l : List Char} (h : ¬ sep <:+: l) :
    pySplitList sep l = [l] := by
  induction l with
  | nil => rfl
  | cons c rest ih =>
    rw [pySplitList_cons]
    have hpre : sep.isPrefixOf (c :: rest) = false := by
      rcases hb : sep.isPrefixOf (c :: rest) with _ | _
      · rfl
      · exact absurd (isPrefixOf_eq_true.mp hb).isInfix h
    have hrest : ¬ sep <:+: rest := fun hi => h (List.infix_cons hi)
    rw [hpre, ih hrest]
    simp

theorem pySplitList_sep_append (sep l : List Char) (hs : sep ≠ []) :
    pySplitList sep (sep ++ l) = [] :: pySplitList sep l := by
  rcases sep with _ | ⟨c, s'⟩
  · exact absurd rfl hs
  · show pySplitList (c :: s') (c :: (s' ++ l)) = _
    rw [pySplitList_cons]
    have hpre : (c :: s').isPrefixOf (c :: (s' ++ l)) = true :=
      isPrefixOf_eq_true.mpr ⟨l, by simp⟩
    rw [hpre]
    simp only [List.isEmpty_cons, Bool.not_false, Bool.true_and, if_true,
      List.length_cons, Nat.add_sub_cancel]
    rw [List.drop_left]

theorem pySplit_marker {nm : String} (h : pyIn "Tool not allowed:" nm = false) :
    pySplit ("Tool not allowed: " ++ nm) "Tool not allowed: " = ["", nm] := by
  have hni : ¬ ("Tool not allowed: ".toList <:+: nm.toList) := by
    intro hi
    have hp : ("Tool not allowed:".toList) <+: ("Tool not allowed: ".toList) := by decide
    exact (pyIn_eq_false.mp h) (hp.isInfix.trans hi)
  unfold pySplit
  rw [toList_append, pySplitList_sep_append _ _ (by decide),
    pySplitList_eq_single hni]
  simp [mk_toList]

/-! ## Helper lemmas: blocked-tool extraction (`facade.py` lines 177-181) -/

theorem extract_spec (errors : List String)
    (hwf : ∀ e ∈ errors, pyIn "Tool not allowed:" e = true →
      ∃ nm, e = "Tool not allowed: " ++ nm ∧ pyIn "Tool not allowed:" nm = false) :
    ∃ blocked, extract_blocked_tools errors = .ok blocked ∧
      (∀ nm ∈ blocked, ("Tool not allowed: " ++ nm) ∈ errors) ∧
      (∀ e ∈ errors, pyIn "Tool not allowed:" e = true →
        ∃ nm, nm ∈ blocked ∧ e = "Tool not allowed: " ++ nm) ∧
      (blocked = [] → ∀ e ∈ errors, pyIn "Tool not allowed:" e = false) := by
  induction errors with
  | nil => exact ⟨[], rfl, by simp, by simp, by simp⟩
  | cons e rest ih =>
    obtain ⟨bl, hbl, hmem, hcov, hemp⟩ :=
      ih (fun e' he' => hwf e' (List.mem_cons_of_mem _ he'))
    by_cases hm : pyIn "Tool not allowed:" e = true
    · obtain ⟨nm, rfl, hnm⟩ := hwf e (List.mem_cons_self _ _) hm
      refine ⟨nm :: bl, ?_, ?_, ?_, ?_⟩
      · simp only [extract_blocked_tools, hm, if_true, pySplit_marker hnm, hbl]
      · intro nm' hnm'
        rcases List.mem_cons.mp hnm' with rfl | htl
        · exact List.mem_cons_self _ _
        · exact List.mem_cons_of_mem _ (hmem nm' htl)
      · intro e' he' hme'
        rcases List.mem_cons.mp he' with rfl | htl
        · exact ⟨nm, List.mem_cons_self _ _, rfl⟩
        · obtain ⟨nm', hin, heq⟩ := hcov e' htl hme'
          exact ⟨nm', List.mem_cons_of_mem _ hin, heq⟩
      · intro hcontra
        exact absurd hcontra (by simp)
    · have hm' : pyIn "Tool not allowed:" e = false := by
        rcases hne : pyIn "Tool not allowed:" e with _ | _
        · rfl
        · exact absurd hne hm
      refine ⟨bl, ?_, ?_, ?_, ?_⟩
      · simp only [extract_blocked_tools, hm', Bool.false_eq_true, if_false, hbl]
      · intro nm' hnm'
        exact List.mem_cons_of_mem _ (hmem nm' hnm')
      · intro e' he' hme'
        rcases List.mem_cons.mp he' with rfl | htl
        · exact absurd hme' hm
        · obtain ⟨nm', hin, heq⟩ := hcov e' htl hme'
          exact ⟨nm', hin, heq⟩
      · intro hbl' e' he'
        rcases List.mem_cons.mp he' with rfl | htl
        · exact hm'
        · exact hemp hbl' e' htl

/-! ## Helper lemmas: `pyDedup` (the `dict.fromkeys` merge) -/

theorem pyDedup_mem {a : String} {l : List String} :
    a ∈ pyDedup l ↔ a ∈ l := by
  induction l with
  | nil => simp [pyDedup]
  | cons x xs ih =>
    by_cases hax : a = x
    · subst hax
      simp [pyDedup]
    · simp [pyDedup, List.mem_filter, hax, ih]

theorem pyDedup_nodup (l : List String) : (pyDedup l).Nodup := by
  induction l with
  | nil => exact List.nodup_nil
  | cons x xs ih =>
    refine List.nodup_cons.mpr ⟨?_, ih.filter _⟩
    intro hx
    have := (List.mem_filter.mp hx).2
    simp at this

theorem filter_swap (p q : String → Bool) (l : List String) :
    (l.filter p).filter q = (l.filter q).filter p := by
  rw [List.filter_filter, List.filter_filter]
  exact List.filter_congr (fun a _ => by rw [Bool.and_comm])

theorem pyDedup_filter (p : String → Bool) (l : List String) :
    (pyDedup l).filter p = pyDedup (l.filter p) := by
  induction l with
  | nil => rfl
  | cons x xs ih =>
    rcases hp : p x with _ | _
    · show ((x :: (pyDedup xs).filter (fun y => y ≠ x)).filter p) = _
      rw [List.filter_cons_of_neg (by simp [hp]), filter_swap, ih,
        List.filter_cons_of_neg (by simp [hp])]
      refine List.filter_eq_self.mpr ?_
      intro b hb
      have hbx : b ∈ xs.filter p := pyDedup_mem.mp hb
      have : b ≠ x := by
        rintro rfl
        have := (List.mem_filter.mp hbx).2
        rw [hp] at this
        cases this
      simp [this]
    · show ((x :: (pyDedup xs).filter (fun y => y ≠ x)).filter p) = _
      rw [List.filter_cons_of_pos (by simp [hp]), filter_swap, ih,
        List.filter_cons_of_pos (by simp [hp])]
      rfl

theorem pyDedup_append (xs ys : List String) (h : xs.Nodup) :
    pyDedup (xs ++ ys) = xs ++ pyDedup (ys.filter (fun y => decide (y ∉ xs))) := by
  induction xs with
  | nil =>
    simp only [List.nil_append]
    congr 1
    refine (List.filter_eq_self.mpr ?_).symm
    intro b _
    simp
  | cons x xs ih =>
    have hx : x ∉ xs := (List.nodup_cons.mp h).1
    have hxs : xs.Nodup := (List.nodup_cons.mp h).2
    show x :: (pyDedup (xs ++ ys)).filter (fun y => y ≠ x) = _
    rw [ih hxs, List.filter_append]
    have h1 : xs.filter (fun y => decide (y ≠ x)) = xs :=
      List.filter_eq_self.mpr (fun b hb => by
        simp only [decide_eq_true_eq]
        rintro rfl
        exact hx hb)
    have h2 : ((pyDedup (ys.filter (fun y => decide (y ∉ xs)))).filter
        (fun y => decide (y ≠ x))) =
        pyDedup (ys.filter (fun y => decide (y ∉ x :: xs))) := by
      rw [pyDedup_filter, List.filter_filter]
      congr 1
      refine List.filter_congr (fun b _ => ?_)
      by_cases hbx : b = x <;> by_cases hbs : b ∈ xs <;> simp [hbx, hbs]
    rw [h1, h2]
    rfl

/-! ## Helper lemmas: `pyMaxBy` (Python's `max(..., key=...)`) -/

theorem pyMaxBy_mem (key : Session → Nat) (l : List Session) :
    ∀ b : Session, pyMaxBy key b l ∈ b :: l := by
  induction l with
  | nil => exact fun b => List.mem_singleton_self _
  | cons s rest ih =>
    intro b
    show (if key s > key b then pyMaxBy key s rest else pyMaxBy key b rest) ∈ _
    by_cases hk : key s > key b
    · rw [if_pos hk]
      exact List.mem_cons_of_mem _ (ih s)
    · rw [if_neg hk]
      rcases List.mem_cons.mp (ih b) with h | h
      · rw [h]
        exact List.mem_cons_self _ _
      · exact List.mem_cons_of_mem _ (List.mem_cons_of_mem _ h)

theorem pyMaxBy_le (key : Session → Nat) (l : List Session) :
    ∀ b : Session, ∀ s ∈ b :: l, key s ≤ key (pyMaxBy key b l) := by
  induction l with
  | nil =>
    intro b s hs
    rw [List.mem_singleton.mp hs]
    exact Nat.le_refl _
  | cons t rest ih =>
    intro b s hs
    show key s ≤ key (if key t > key b then pyMaxBy key t rest else pyMaxBy key b rest)
    by_cases hk : key t > key b
    · rw [if_pos hk]
      rcases List.mem_cons.mp hs with rfl | hs'
      · exact Nat.le_trans (Nat.le_of_lt hk) (ih t t (List.mem_cons_self _ _))
      · exact ih t s hs'
    · rw [if_neg hk]
      rcases List.mem_cons.mp hs with rfl | hs'
      · exact ih s s (List.mem_cons_self _ _)
      · rcases List.mem_cons.mp hs' with rfl | hs''
        · exact Nat.le_trans (Nat.le_of_not_lt hk) (ih b b (List.mem_cons_self _ _))
        · exact ih b s (List.mem_cons_of_mem _ hs'')

/-! ## Helper lemmas: the validation interposer -/

theorem handle_tool_call_valid (ctx : CallCtx) (st : ValState) (tc : ToolCall)
    (h : (ctx.validator tc.name tc.input ctx.working_directory ctx.user_id).1 = true) :
    handle_tool_call ctx st tc = (st, none) := by
  unfold handle_tool_call
  rw [if_pos h]

theorem run_tool_calls_valid (ctx : CallCtx) (l : List ToolCall) :
    ∀ st : ValState,
      (∀ tc ∈ l,
        (ctx.validator tc.name tc.input ctx.working_directory ctx.user_id).1 = true) →
      run_tool_calls ctx st l = (st, none) := by
  induction l with
  | nil => intro st _; rfl
  | cons tc rest ih =>
    intro st h
    show run_tool_calls ctx st (tc :: rest) = (st, none)
    simp only [run_tool_calls]
    rw [handle_tool_call_valid ctx st tc (h tc (List.mem_cons_self _ _))]
    exact ih st (fun tc' htc' => h tc' (List.mem_cons_of_mem _ htc'))

theorem stream_handler_valid (ctx : CallCtx) (os : Option OnStreamCb)
    (st : ValState) (u : StreamUpdate)
    (h : ∀ tc ∈ u.tool_calls,
      (ctx.validator tc.name tc.input ctx.working_directory ctx.user_id).1 = true) :
    stream_handler ctx os st u = (st, none) := by
  unfold stream_handler
  rw [run_tool_calls_valid ctx u.tool_calls st h]
  cases os with
  | none => rfl
  | some f =>
    cases hfu : f u with
    | ok a => simp [hfu]
    | error a => simp [hfu]

theorem run_stream_valid (ctx : CallCtx) (os : Option OnStreamCb)
    (us : List StreamUpdate) :
    ∀ st : ValState,
      (∀ u ∈ us, ∀ tc ∈ u.tool_calls,
        (ctx.validator tc.name tc.input ctx.working_directory ctx.user_id).1 = true) →
      run_stream ctx os st us = (st, none) := by
  induction us with
  | nil => intro st _; rfl
  | cons u rest ih =>
    intro st h
    show run_stream ctx os st (u :: rest) = (st, none)
    simp only [run_stream]
    rw [stream_handler_valid ctx os st u (h u (List.mem_cons_self _ _))]
    exact ih st (fun u' hu' => h u' (List.mem_cons_of_mem _ hu'))

theorem run_backend_valid (ctx : CallCtx) (os : Option OnStreamCb)
    (st : ValState) (b : BackendRun)
    (h : ∀ u ∈ b.updates, ∀ tc ∈ u.tool_calls,
      (ctx.validator tc.name tc.input ctx.working_directory ctx.user_id).1 = true) :
    run_backend ctx os st b = (st, b.outcome) := by
  unfold run_backend
  rw [run_stream_valid ctx os b.updates st h]

theorem handle_tool_call_raise (ctx : CallCtx) (st st' : ValState)
    (tc : ToolCall) (e : PyError)
    (h : handle_tool_call ctx st tc = (st', some e)) :
    e = .toolValidation
          (create_tool_error_message st'.blocked_tools
            (ctx.cfg.claude_allowed_tools.getD [])
            (get_admin_instructions ctx.env_file_exists st'.blocked_tools))
          st'.blocked_tools (ctx.cfg.claude_allowed_tools.getD []) := by
  unfold handle_tool_call at h
  by_cases hv : (ctx.validator tc.name tc.input ctx.working_directory ctx.user_id).1 = true
  · rw [if_pos hv] at h
    simp at h
  · rw [if_neg hv] at h
    by_cases hc : tc.name ∈ critical_tools
    · rw [if_pos hc] at h
      simp only [Prod.mk.injEq] at h
      obtain ⟨rfl, he⟩ := h
      injection he with he2
      exact he2.symm
    · rw [if_neg hc] at h
      simp at h

theorem run_tool_calls_raise (ctx : CallCtx) (l : List ToolCall) :
    ∀ (st st' : ValState) (e : PyError),
      run_tool_calls ctx st l = (st', some e) →
      e = .toolValidation
            (create_tool_error_message st'.blocked_tools
              (ctx.cfg.claude_allowed_tools.getD [])
              (get_admin_instructions ctx.env_file_exists st'.blocked_tools))
            st'.blocked_tools (ctx.cfg.claude_allowed_tools.getD []) := by
  induction l with
  | nil =>
    intro st st' e h
    simp only [run_tool_calls] at h
    simp at h
  | cons tc rest ih =>
    intro st st' e h
    simp only [run_tool_calls] at h
    rcases hh : handle_tool_call ctx st tc with ⟨st1, e1?⟩
    rw [hh] at h
    cases e1? with
    | none => exact ih st1 st' e h
    | some e1 =>
      simp only [Prod.mk.injEq] at h
      obtain ⟨rfl, he⟩ := h
      injection he with he2
      exact he2 ▸ handle_tool_call_raise ctx st st1 tc e1 hh

theorem stream_handler_raise (ctx : CallCtx) (os : Option OnStreamCb)
    (st st' : ValState) (u : StreamUpdate) (e : PyError)
    (h : stream_handler ctx os st u = (st', some e)) :
    e = .toolValidation
          (create_tool_error_message st'.blocked_tools
            (ctx.cfg.claude_allowed_tools.getD [])
            (get_admin_instructions ctx.env_file_exists st'.blocked_tools))
          st'.blocked_tools (ctx.cfg.claude_allowed_tools.getD []) := by
  unfold stream_handler at h
  rcases hh : run_tool_calls ctx st u.tool_calls with ⟨st1, e1?⟩
  rw [hh] at h
  cases e1? with
  | some e1 =>
    simp only [Prod.mk.injEq] at h
    obtain ⟨rfl, he⟩ := h
    injection he with he2
    exact he2 ▸ run_tool_calls_raise ctx u.tool_calls st st1 e1 hh
  | none =>
    cases os with
    | none => simp at h
    | some f =>
      cases hfu : f u with
      | ok a => simp [hfu] at h
      | error a => simp [hfu] at h

theorem run_stream_raise (ctx : CallCtx) (os : Option OnStreamCb)
    (us : List StreamUpdate) :
    ∀ (st st' : ValState) (e : PyError),
      run_stream ctx os st us = (st', some e) →
      e = .toolValidation
            (create_tool_error_message st'.blocked_tools
              (ctx.cfg.claude_allowed_tools.getD [])
              (get_admin_instructions ctx.env_file_exists st'.blocked_tools))
            st'.blocked_tools (ctx.cfg.claude_allowed_tools.getD []) := by
  induction us with
  | nil =>
    intro st st' e h
    simp only [run_stream] at h
    simp at h
  | cons u rest ih =>
    intro st st' e h
    simp only [run_stream] at h
    rcases hh : stream_handler ctx os st u with ⟨st1, e1?⟩
    rw [hh] at h
    cases e1? with
    | none => exact ih st1 st' e h
    | some e1 =>
      simp only [Prod.mk.injEq] at h
      obtain ⟨rfl, he⟩ := h
      injection he with he2
      exact he2 ▸ stream_handler_raise ctx os st st1 u e1 hh

/-! ## Helper lemmas: `_execute_with_fallback` and `run_command` unfoldings -/

theorem execute_sdk_ok (ctx : CallCtx) (os : Option OnStreamCb)
    (sid : Option String) (cont : Bool) (sdk proc : Backend) (count : Nat)
    (st st1 : ValState) (r : ClaudeResponse)
    (hu : ctx.cfg.use_sdk = true)
    (h1 : run_backend ctx os st (sdk sid cont) = (st1, .ok r)) :
    execute_with_fallback ctx os sid cont sdk proc count st = (st1, 0, .ok r) := by
  unfold execute_with_fallback
  rw [hu, h1]
  rfl

theorem execute_sdk_err_fatal (ctx : CallCtx) (os : Option OnStreamCb)
    (sid : Option String) (cont : Bool) (sdk proc : Backend) (count : Nat)
    (st st1 : ValState) (e : PyError)
    (hu : ctx.cfg.use_sdk = true)
    (h1 : run_backend ctx os st (sdk sid cont) = (st1, .error e))
    (ht : is_transient (errString e) = false) :
    execute_with_fallback ctx os sid cont sdk proc count st = (st1, count, .error e) := by
  unfold execute_with_fallback
  rw [hu, h1]
  simp [ht]

theorem execute_sdk_err_transient (ctx : CallCtx) (os : Option OnStreamCb)
    (sid : Option String) (cont : Bool) (sdk proc : Backend) (count : Nat)
    (st st1 st2 : ValState) (e : PyError) (r2 : Except PyError ClaudeResponse)
    (hu : ctx.cfg.use_sdk = true)
    (h1 : run_backend ctx os st (sdk sid cont) = (st1, .error e))
    (ht : is_transient (errString e) = true)
    (h2 : run_backend ctx os st1 (proc sid cont) = (st2, r2)) :
    execute_with_fallback ctx os sid cont sdk proc count st =
      (st2, count + 1,
        match r2 with
        | .ok response => .ok response
        | .error _ => .error e) := by
  cases r2 with
  | ok response =>
    unfold execute_with_fallback
    rw [hu, h1]
    simp only [ht, if_true]
    rw [h2]
  | error e2 =>
    unfold execute_with_fallback
    rw [hu, h1]
    simp only [ht, if_true]
    rw [h2]

theorem execute_no_sdk (ctx : CallCtx) (os : Option OnStreamCb)
    (sid : Option String) (cont : Bool) (sdk proc : Backend) (count : Nat)
    (st st1 : ValState) (r1 : Except PyError ClaudeResponse)
    (hu : ctx.cfg.use_sdk = false)
    (h1 : run_backend ctx os st (proc sid cont) = (st1, r1)) :
    execute_with_fallback ctx os sid cont sdk proc count st = (st1, count, r1) := by
  unfold execute_with_fallback
  rw [hu]
  simp only [Bool.false_eq_true, if_false]
  rw [h1]

theorem run_command_of_ok (ctx : CallCtx) (os : Option OnStreamCb)
    (prompt : String) (sid : Option String) (session : Session)
    (sdk proc : Backend) (count cnt : Nat) (st : ValState) (resp : ClaudeResponse)
    (hexec : execute_with_fallback ctx os (claude_session_id session)
        (should_continue sid session) sdk proc count initialValState
        = (st, cnt, .ok resp)) :
    run_command ctx os prompt sid session sdk proc count =
      match apply_validation ctx.cfg st resp with
      | .error e => (st, cnt, .error e)
      | .ok response' =>
        (st, cnt, .ok { response' with session_id :=
          if response'.session_id != "" then response'.session_id
          else session.session_id }) := by
  unfold run_command
  rw [hexec]

theorem run_command_of_err (ctx : CallCtx) (os : Option OnStreamCb)
    (prompt : String) (sid : Option String) (session : Session)
    (sdk proc : Backend) (count cnt : Nat) (st : ValState) (e : PyError)
    (hexec : execute_with_fallback ctx os (claude_session_id session)
        (should_continue sid session) sdk proc count initialValState
        = (st, cnt, .error e)) :
    run_command ctx os prompt sid session sdk proc count = (st, cnt, .error e) := by
  unfold run_command
  rw [hexec]

theorem apply_validation_of_valid (cfg : Settings) (st : ValState)
    (resp : ClaudeResponse) (hv : st.tools_validated = true) :
    apply_validation cfg st resp = .ok resp := by
  unfold apply_validation
  rw [hv]
  simp

/-! ## Helper lemmas: remediation-content containment -/

theorem blocked_message_contains (blocked_tools allowed_tools : List String)
    (nm : String) (h : nm ∈ blocked_tools) :
    pyIn nm (blocked_tools_message blocked_tools allowed_tools) = true := by
  rw [pyIn_eq_true]
  have h1 : nm.toList <:+: ("`" ++ nm ++ "`").toList :=
    pyInfix_str_left _ (pyInfix_str_right _ (List.infix_refl _))
  have h2 : ("`" ++ nm ++ "`") ∈ blocked_tools.map (fun tool => "`" ++ tool ++ "`") :=
    List.mem_map_of_mem _ h
  have h3 : nm.toList <:+:
      (pyJoin ", " (blocked_tools.map (fun tool => "`" ++ tool ++ "`"))).toList :=
    h1.trans (pyJoin_mem_substring _ h2)
  show nm.toList <:+: (blocked_tools_message blocked_tools allowed_tools).toList
  simp only [blocked_tools_message]
  exact pyInfix_str_left _ (pyInfix_str_left _ (pyInfix_str_left _
    (pyInfix_str_left _ (pyInfix_str_left _ (pyInfix_str_left _
      (pyInfix_str_left _ (pyInfix_str_right _ h3)))))))

/-! ## Concrete fixtures used by witnesses and counterexamples -/

/-- A validator approving every tool call. -/
def okValidator : ToolValidator := fun _ _ _ _ => (true, "")

/-- A validator denying `Read` with the allow-list-violation reason the tool
monitor produces. -/
def denyReadValidator : ToolValidator := fun name _ _ _ =>
  if name == "Read" then (false, "Tool not allowed: Read") else (true, "")

/-- A validator denying `Bash` (a non-critical tool) with the
allow-list-violation reason. -/
def denyBashValidator : ToolValidator := fun name _ _ _ =>
  if name == "Bash" then (false, "Tool not allowed: Bash") else (true, "")

/-- A backend that streams nothing and returns `r`. -/
def okBackend (r : ClaudeResponse) : Backend := fun _ _ => ⟨[], .ok r⟩

/-- A backend that streams nothing and raises `e`. -/
def errBackend (e : PyError) : Backend := fun _ _ => ⟨[], .error e⟩

/-- A backend that streams `us` and then returns `outcome`. -/
def streamBackend (us : List StreamUpdate) (outcome : Except PyError ClaudeResponse) :
    Backend := fun _ _ => ⟨us, outcome⟩

/-- An update carrying one `Read` tool call. -/
def readUpdate : StreamUpdate := ⟨[⟨"Read", []⟩]⟩

/-- An update carrying one `Bash` tool call. -/
def bashUpdate : StreamUpdate := ⟨[⟨"Bash", []⟩]⟩

/-- A plain backend response with a real (non-placeholder) session id. -/
def respR : ClaudeResponse := ⟨"hi", "sess-r", 1, 2, 3, false, none⟩

/-- A continuing (non-new) session with a real id. -/
def contSession : Session := ⟨"s1", 7, "/w", 0, 0, 0, 0, [], false⟩

/-- A caller-supplied stream handler that always raises. -/
def failCb : OnStreamCb := fun _ => .error "callback boom"

set_option maxRecDepth 4000

/-! ## Claim theorems -/

/-- C5: for every `run_command` call, the session id forwarded to the backend
is `none` when the resolved session is new (holds a locally fabricated
placeholder id), and equals `session.session_id` otherwise — a placeholder id
is never forwarded — and the continue-session flag equals
(a session id was supplied by the caller) AND NOT `session.is_new_session`.
`claude_session_id` and `should_continue` are exactly the values `run_command`
passes to `_execute_with_fallback` and hence to both backends
(`facade.py` lines 145-164). -/
theorem C5_forwarded_session_identity (session : Session)
    (session_id : Option String) (hwf : SessionWF session) :
    (session.is_new_session = true → claude_session_id session = none)
  ∧ (session.is_new_session = false →
      claude_session_id session = some session.session_id)
  ∧ (∀ s, claude_session_id session = some s → isPlaceholder s = false)
  ∧ should_continue session_id session
      = (pyTruthy session_id && !session.is_new_session) := by
  refine ⟨?_, ?_, ?_, rfl⟩
  · intro h
    simp [claude_session_id, h]
  · intro h
    simp [claude_session_id, h]
  · intro s hs
    unfold claude_session_id at hs
    by_cases hn : session.is_new_session = true
    · simp [hn] at hs
    · have hn' : session.is_new_session = false := by
        rcases hb : session.is_new_session with _ | _
        · rfl
        · exact absurd hb hn
      simp [hn'] at hs
      subst hs
      unfold SessionWF at hwf
      rw [← hwf, hn']

theorem C5_forwarded_session_identity_witness :
    SessionWF contSession
  ∧ claude_session_id contSession = some "s1"
  ∧ should_continue (some "s1") contSession = true := by
  have h := C5_forwarded_session_identity contSession (some "s1")
    (by unfold SessionWF; decide)
  refine ⟨by unfold SessionWF; decide, ?_, by decide⟩
  rw [h.2.1 (by decide)]
  rfl

/-- C6 (code bug evaluation): for a continuing session (`is_new_session =
false`, original id `"s1"`) whose backend returns a response carrying session
id `"s2"`, `run_command` returns `Response.sessionId = "s2"`, not the original
`"s1"`: the guard at `facade.py` line 209 tests `hasattr(session,
"is_new_session")` — true for every `Session` of the data model — instead of
the session being new, so the branch its own comment reserves for new sessions
fires for continuing sessions too. -/
theorem C6_continuing_session_keeps_backend_id :
    contSession.is_new_session = false
  ∧ contSession.session_id = "s1"
  ∧ (run_command ⟨⟨false, none⟩, okValidator, "/w", 7, false⟩ none "p"
      (some "s1") contSession (okBackend respR)
      (okBackend ⟨"ok", "s2", 3, 5, 1, false, none⟩) 0).2.2
      = .ok ⟨"ok", "s2", 3, 5, 1, false, none⟩ :=
  ⟨rfl, rfl, rfl⟩

/-- C7 counterexample: the remediation merge of `_get_admin_instructions` does
not equal `["Read", "Write", "Bash"]` on blocked `["Bash", "Read"]` (whatever
the configured allow-list — the configured list is not consulted); it equals
the hardcoded built-in `current_tools` list. -/
theorem C7_merge_counterexample :
    merged_tools ["Bash", "Read"] ≠ ["Read", "Write", "Bash"]
  ∧ merged_tools ["Bash", "Read"] = current_tools := by
  decide

/-- C7 (amended): the administrator block's merged allow-list is computed as
the union of the hardcoded built-in `current_tools` list (not the configured
allow-list) and the blocked tools, duplicates removed, built-in order
preserved, newly blocked tools appended in the order first seen; in
particular for blocked `["Bash", "Read"]` the merge equals the built-in
15-tool list. -/
theorem C7_merged_allow_list (blocked_tools : List String) :
    (merged_tools blocked_tools).Nodup
  ∧ (∀ t, t ∈ merged_tools blocked_tools ↔
      (t ∈ current_tools ∨ t ∈ blocked_tools))
  ∧ merged_tools blocked_tools
      = current_tools
        ++ pyDedup (blocked_tools.filter (fun t => decide (t ∉ current_tools)))
  ∧ merged_tools ["Bash", "Read"] = current_tools := by
  refine ⟨pyDedup_nodup _, ?_, ?_, by decide⟩
  · intro t
    unfold merged_tools
    rw [pyDedup_mem, List.mem_append]
  · unfold merged_tools
    exact pyDedup_append current_tools blocked_tools (by decide)

/-- C8: for every user and working directory, `continue_session` filters the
user's sessions to those whose project path equals the working directory and
whose id is not a placeholder, returns `none` when that filtered set is
empty, and otherwise delegates to `run_command` with the id of the filtered
session having maximum `last_used` (the first such on ties, as Python's
`max`). -/
theorem C8_continue_session_selection (ctx : CallCtx) (os : Option OnStreamCb)
    (prompt : Option String) (sessions : List Session) (resolved : Session)
    (sdk proc : Backend) (count : Nat) :
    (∀ s, s ∈ matching_sessions ctx.working_directory sessions ↔
      (s ∈ sessions ∧ s.project_path = ctx.working_directory
        ∧ isPlaceholder s.session_id = false))
  ∧ (matching_sessions ctx.working_directory sessions = [] →
      continue_session ctx os prompt sessions resolved sdk proc count = none)
  ∧ (∀ s0 ss, matching_sessions ctx.working_directory sessions = s0 :: ss →
      (pyMaxBy (fun s => s.last_used) s0 ss
          ∈ matching_sessions ctx.working_directory sessions
       ∧ (∀ s ∈ matching_sessions ctx.working_directory sessions,
            s.last_used ≤ (pyMaxBy (fun s => s.last_used) s0 ss).last_used)
       ∧ continue_session ctx os prompt sessions resolved sdk proc count
           = some (run_command ctx os (prompt.getD "")
               (some (pyMaxBy (fun s => s.last_used) s0 ss).session_id)
               resolved sdk proc count))) := by
  refine ⟨?_, ?_, ?_⟩
  · intro s
    unfold matching_sessions
    rw [List.mem_filter]
    constructor
    · rintro ⟨hs, hcond⟩
      rw [Bool.and_eq_true] at hcond
      refine ⟨hs, ?_, ?_⟩
      · exact beq_iff_eq.mp hcond.1
      · unfold isPlaceholder
        rcases hb : pyStartsWith "temp_" s.session_id with _ | _
        · rfl
        · rw [hb] at hcond
          simp at hcond
    · rintro ⟨hs, hdir, hph⟩
      refine ⟨hs, ?_⟩
      rw [Bool.and_eq_true]
      refine ⟨beq_iff_eq.mpr hdir, ?_⟩
      unfold isPlaceholder at hph
      rw [hph]
      rfl
  · intro h
    unfold continue_session
    rw [h]
  · intro s0 ss h
    refine ⟨?_, ?_, ?_⟩
    · rw [h]
      exact pyMaxBy_mem (fun s => s.last_used) ss s0
    · intro s hs
      rw [h] at hs
      exact pyMaxBy_le (fun s => s.last_used) ss s0 s hs
    · unfold continue_session
      rw [h]

theorem C8_continue_session_selection_witness :
    continue_session ⟨⟨false, none⟩, okValidator, "C", 1, false⟩ none none
      [⟨"idA10", 1, "A", 0, 10, 0, 0, [], false⟩,
       ⟨"idA20", 1, "A", 0, 20, 0, 0, [], false⟩,
       ⟨"idB5", 1, "B", 0, 5, 0, 0, [], false⟩]
      contSession (okBackend respR) (okBackend respR) 0 = none
  ∧ continue_session ⟨⟨false, none⟩, okValidator, "A", 1, false⟩ none none
      [⟨"idA10", 1, "A", 0, 10, 0, 0, [], false⟩,
       ⟨"idA20", 1, "A", 0, 20, 0, 0, [], false⟩,
       ⟨"idB5", 1, "B", 0, 5, 0, 0, [], false⟩]
      contSession (okBackend respR) (okBackend respR) 0
      = some (run_command ⟨⟨false, none⟩, okValidator, "A", 1, false⟩ none ""
          (some "idA20") contSession (okBackend respR) (okBackend respR) 0) := by
  constructor
  · exact (C8_continue_session_selection ⟨⟨false, none⟩, okValidator, "C", 1, false⟩
      none none _ contSession (okBackend respR) (okBackend respR) 0).2.1 (by decide)
  · have h := (C8_continue_session_selection ⟨⟨false, none⟩, okValidator, "A", 1, false⟩
      none none
      [⟨"idA10", 1, "A", 0, 10, 0, 0, [], false⟩,
       ⟨"idA20", 1, "A", 0, 20, 0, 0, [], false⟩,
       ⟨"idB5", 1, "B", 0, 5, 0, 0, [], false⟩]
      contSession (okBackend respR) (okBackend respR) 0).2.2
      ⟨"idA10", 1, "A", 0, 10, 0, 0, [], false⟩
      [⟨"idA20", 1, "A", 0, 20, 0, 0, [], false⟩] (by decide)
    exact h.2.2

/-- C9: exceptions raised by the caller-supplied stream handler are caught and
logged by the wrapped interposer, which returns normally — its result does not
depend on the caller handler at all, so a caller-handler exception never
aborts the in-flight backend call; and the only exception the interposer
itself raises is the critical-tool `ClaudeToolValidationError`, carrying the
accumulated blocked-tool set and the configured allow-list. -/
theorem C9_handler_exceptions_contained (ctx : CallCtx) (st : ValState)
    (u : StreamUpdate) :
    (∀ f : OnStreamCb, stream_handler ctx (some f) st u
        = stream_handler ctx none st u)
  ∧ (∀ (os : Option OnStreamCb) (st' : ValState) (e : PyError),
      stream_handler ctx os st u = (st', some e) →
      ∃ msg, e = PyError.toolValidation msg st'.blocked_tools
        (ctx.cfg.claude_allowed_tools.getD [])) := by
  constructor
  · intro f
    unfold stream_handler
    rcases hrtc : run_tool_calls ctx st u.tool_calls with ⟨st1, e1?⟩
    cases e1? with
    | some e1 => rfl
    | none =>
      cases hfu : f u with
      | ok a => simp [hfu]
      | error a => simp [hfu]
  · intro os st' e h
    exact ⟨_, stream_handler_raise ctx os st st' u e h⟩

theorem C9_handler_exceptions_contained_witness :
    stream_handler ⟨⟨true, some ["Bash"]⟩, denyReadValidator, "/w", 7, false⟩
      (some failCb) initialValState readUpdate
    = stream_handler ⟨⟨true, some ["Bash"]⟩, denyReadValidator, "/w", 7, false⟩
      none initialValState readUpdate :=
  (C9_handler_exceptions_contained
    ⟨⟨true, some ["Bash"]⟩, denyReadValidator, "/w", 7, false⟩
    initialValState readUpdate).1 failCb

/-- C3: for every `run_command` call whose primary (SDK) backend raises: if
the error text does not match the transient patterns, the primary error is
propagated unchanged and no secondary attempt is made (the result does not
depend on the secondary backend at all); if it does match and the secondary
(subprocess) backend also raises, the exception propagated to the caller is
the original primary error `e1`, never the secondary one. -/
theorem C3_error_attribution (ctx : CallCtx) (os : Option OnStreamCb)
    (prompt : String) (session_id : Option String) (session : Session)
    (sdk : Backend) (count : Nat) (st1 : ValState) (e1 : PyError)
    (husesdk : ctx.cfg.use_sdk = true)
    (h1 : run_backend ctx os initialValState
        (sdk (claude_session_id session) (should_continue session_id session))
        = (st1, .error e1)) :
    (is_transient (errString e1) = false →
      ∀ proc proc' : Backend,
        run_command ctx os prompt session_id session sdk proc count
          = run_command ctx os prompt session_id session sdk proc' count
        ∧ (run_command ctx os prompt session_id session sdk proc count).2.2
            = .error e1)
  ∧ (∀ (proc : Backend) (st2 : ValState) (e2 : PyError),
      is_transient (errString e1) = true →
      run_backend ctx os st1
          (proc (claude_session_id session) (should_continue session_id session))
        = (st2, .error e2) →
      (run_command ctx os prompt session_id session sdk proc count).2.2
        = .error e1) := by
  constructor
  · intro ht proc proc'
    have hA := run_command_of_err ctx os prompt session_id session sdk proc
      count count st1 e1
      (execute_sdk_err_fatal ctx os _ _ sdk proc count initialValState st1 e1
        husesdk h1 ht)
    have hB := run_command_of_err ctx os prompt session_id session sdk proc'
      count count st1 e1
      (execute_sdk_err_fatal ctx os _ _ sdk proc' count initialValState st1 e1
        husesdk h1 ht)
    exact ⟨by rw [hA, hB], by rw [hA]⟩
  · intro proc st2 e2 ht h2
    have hexec : execute_with_fallback ctx os (claude_session_id session)
        (should_continue session_id session) sdk proc count initialValState
        = (st2, count + 1, .error e1) :=
      execute_sdk_err_transient ctx os _ _ sdk proc count initialValState st1
        st2 e1 (.error e2) husesdk h1 ht h2
    rw [run_command_of_err ctx os prompt session_id session sdk proc count
      (count + 1) st2 e1 hexec]

theorem C3_error_attribution_witness :
    (run_command ⟨⟨true, some ["Read"]⟩, okValidator, "/w", 7, false⟩ none "p"
        (some "s1") contSession (errBackend (.other "quota exceeded"))
        (okBackend respR) 0
      = run_command ⟨⟨true, some ["Read"]⟩, okValidator, "/w", 7, false⟩ none "p"
        (some "s1") contSession (errBackend (.other "quota exceeded"))
        (errBackend PyError.indexError) 0)
  ∧ (run_command ⟨⟨true, some ["Read"]⟩, okValidator, "/w", 7, false⟩ none "p"
        (some "s1") contSession (errBackend (.other "quota exceeded"))
        (okBackend respR) 0).2.2
      = .error (.other "quota exceeded") := by
  have h := (C3_error_attribution ⟨⟨true, some ["Read"]⟩, okValidator, "/w", 7, false⟩
    none "p" (some "s1") contSession (errBackend (.other "quota exceeded")) 0
    initialValState (.other "quota exceeded") rfl rfl).1 (by decide)
    (okBackend respR) (errBackend PyError.indexError)
  exact ⟨h.1, h.2⟩

/-- C4: given a primary backend raising a transient-pattern error and a
secondary backend returning `R` (with no deferred denial recorded in the
threaded validation state and a non-empty engine session id in `R`, so no
post-hoc mutation applies), `run_command` returns `R`; the consecutive-failure
counter increments by exactly 1 on that call, it is never reset by a secondary
attempt (whatever the secondary does, the counter after the call is
`count + 1`), and it resets to 0 on the next call in which the primary
backend succeeds. -/
theorem C4_fallback_correctness (ctx : CallCtx) (os : Option OnStreamCb)
    (prompt : String) (session_id : Option String) (session : Session)
    (sdk proc : Backend) (count : Nat) (st1 st2 : ValState) (e1 : PyError)
    (R : ClaudeResponse)
    (husesdk : ctx.cfg.use_sdk = true)
    (h1 : run_backend ctx os initialValState
        (sdk (claude_session_id session) (should_continue session_id session))
        = (st1, .error e1))
    (ht : is_transient (errString e1) = true)
    (h2 : run_backend ctx os st1
        (proc (claude_session_id session) (should_continue session_id session))
        = (st2, .ok R))
    (hv : st2.tools_validated = true)
    (hs : R.session_id ≠ "") :
    run_command ctx os prompt session_id session sdk proc count
      = (st2, count + 1, .ok R)
  ∧ (∀ proc2 : Backend,
      (run_command ctx os prompt session_id session sdk proc2 count).2.1
        = count + 1)
  ∧ (∀ (sdk2 : Backend) (count0 : Nat) (st' : ValState) (R2 : ClaudeResponse),
      run_backend ctx os initialValState
          (sdk2 (claude_session_id session) (should_continue session_id session))
        = (st', .ok R2) →
      (run_command ctx os prompt session_id session sdk2 proc count0).2.1 = 0) := by
  refine ⟨?_, ?_, ?_⟩
  · have hexec : execute_with_fallback ctx os (claude_session_id session)
        (should_continue session_id session) sdk proc count initialValState
        = (st2, count + 1, .ok R) :=
      execute_sdk_err_transient ctx os _ _ sdk proc count initialValState st1
        st2 e1 (.ok R) husesdk h1 ht h2
    rw [run_command_of_ok ctx os prompt session_id session sdk proc count
      (count + 1) st2 R hexec]
    rw [apply_validation_of_valid ctx.cfg st2 R hv]
    have hcond : (R.session_id != "") = true := bne_iff_ne.mpr hs
    simp only [hcond, if_true]
  · intro proc2
    rcases hr2 : run_backend ctx os st1
        (proc2 (claude_session_id session) (should_continue session_id session))
      with ⟨st2', r2'⟩
    cases r2' with
    | ok R' =>
      have hexec : execute_with_fallback ctx os (claude_session_id session)
          (should_continue session_id session) sdk proc2 count initialValState
          = (st2', count + 1, .ok R') :=
        execute_sdk_err_transient ctx os _ _ sdk proc2 count initialValState
          st1 st2' e1 (.ok R') husesdk h1 ht hr2
      rw [run_command_of_ok ctx os prompt session_id session sdk proc2 count
        (count + 1) st2' R' hexec]
      cases apply_validation ctx.cfg st2' R' <;> rfl
    | error e2 =>
      have hexec : execute_with_fallback ctx os (claude_session_id session)
          (should_continue session_id session) sdk proc2 count initialValState
          = (st2', count + 1, .error e1) :=
        execute_sdk_err_transient ctx os _ _ sdk proc2 count initialValState
          st1 st2' e1 (.error e2) husesdk h1 ht hr2
      rw [run_command_of_err ctx os prompt session_id session sdk proc2 count
        (count + 1) st2' e1 hexec]
  · intro sdk2 count0 st' R2 hsdk2
    have hexec : execute_with_fallback ctx os (claude_session_id session)
        (should_continue session_id session) sdk2 proc count0 initialValState
        = (st', 0, .ok R2) :=
      execute_sdk_ok ctx os _ _ sdk2 proc count0 initialValState st' R2
        husesdk hsdk2
    rw [run_command_of_ok ctx os prompt session_id session sdk2 proc count0
      0 st' R2 hexec]
    cases apply_validation ctx.cfg st' R2 <;> rfl

theorem C4_fallback_correctness_witness :
    run_command ⟨⟨true, some ["Read"]⟩, okValidator, "/w", 7, false⟩ none "p"
        (some "s1") contSession (errBackend (.other "Failed to decode JSON: x"))
        (okBackend respR) 5
      = (initialValState, 6, .ok respR)
  ∧ (run_command ⟨⟨true, some ["Read"]⟩, okValidator, "/w", 7, false⟩ none "p"
        (some "s1") contSession (okBackend respR) (okBackend respR) 9).2.1 = 0 := by
  have h := C4_fallback_correctness
    ⟨⟨true, some ["Read"]⟩, okValidator, "/w", 7, false⟩ none "p" (some "s1")
    contSession (errBackend (.other "Failed to decode JSON: x"))
    (okBackend respR) 5 initialValState initialValState
    (.other "Failed to decode JSON: x") respR rfl rfl (by decide) rfl rfl
    (by decide)
  exact ⟨h.1, h.2.2 (okBackend respR) 9 initialValState respR rfl⟩

theorem run_command_frame_of_exec_ok (ctx : CallCtx) (os : Option OnStreamCb)
    (prompt : String) (sid : Option String) (session : Session)
    (sdk proc : Backend) (count cnt : Nat) (st : ValState)
    (r r' : ClaudeResponse)
    (hexec : execute_with_fallback ctx os (claude_session_id session)
        (should_continue sid session) sdk proc count initialValState
        = (st, cnt, .ok r))
    (hval : st.tools_validated = true)
    (hr : (run_command ctx os prompt sid session sdk proc count).2.2 = .ok r') :
    r'.content = r.content ∧ r'.cost = r.cost
      ∧ r'.duration_ms = r.duration_ms ∧ r'.num_turns = r.num_turns
      ∧ r'.is_error = r.is_error ∧ r'.error_type = r.error_type := by
  rw [run_command_of_ok ctx os prompt sid session sdk proc count cnt st r hexec,
    apply_validation_of_valid ctx.cfg st r hval] at hr
  simp only [Except.ok.injEq] at hr
  subst hr
  exact ⟨rfl, rfl, rfl, rfl, rfl, rfl⟩

/-- C10: for every `run_command` call in which every streamed tool call passes
validation (or no tool calls are streamed at all) and the call returns a
`Response`, that response is the one produced by one of the two backends with
every field other than `session_id` unchanged: content, cost, duration,
number of turns, error flag and error type are exactly the backend's, and
only the session id may be rewritten by session-identity reconciliation. -/
theorem C10_response_frame (ctx : CallCtx) (os : Option OnStreamCb)
    (prompt : String) (session_id : Option String) (session : Session)
    (sdk proc : Backend) (count : Nat) (r' : ClaudeResponse)
    (hv : ∀ u ∈ (sdk (claude_session_id session)
          (should_continue session_id session)).updates
        ++ (proc (claude_session_id session)
          (should_continue session_id session)).updates,
      ∀ tc ∈ u.tool_calls,
        (ctx.validator tc.name tc.input ctx.working_directory ctx.user_id).1 = true)
    (hr : (run_command ctx os prompt session_id session sdk proc count).2.2
      = .ok r') :
    ∃ r, ((sdk (claude_session_id session)
            (should_continue session_id session)).outcome = .ok r
        ∨ (proc (claude_session_id session)
            (should_continue session_id session)).outcome = .ok r)
      ∧ r'.content = r.content ∧ r'.cost = r.cost
      ∧ r'.duration_ms = r.duration_ms ∧ r'.num_turns = r.num_turns
      ∧ r'.is_error = r.is_error ∧ r'.error_type = r.error_type := by
  have hvs : ∀ u ∈ (sdk (claude_session_id session)
      (should_continue session_id session)).updates, ∀ tc ∈ u.tool_calls,
      (ctx.validator tc.name tc.input ctx.working_directory ctx.user_id).1 = true :=
    fun u hu => hv u (List.mem_append_left _ hu)
  have hvp : ∀ u ∈ (proc (claude_session_id session)
      (should_continue session_id session)).updates, ∀ tc ∈ u.tool_calls,
      (ctx.validator tc.name tc.input ctx.working_directory ctx.user_id).1 = true :=
    fun u hu => hv u (List.mem_append_right _ hu)
  have hbs := run_backend_valid ctx os initialValState
    (sdk (claude_session_id session) (should_continue session_id session)) hvs
  have hbp := run_backend_valid ctx os initialValState
    (proc (claude_session_id session) (should_continue session_id session)) hvp
  by_cases hu : ctx.cfg.use_sdk = true
  · rcases hout : (sdk (claude_session_id session)
        (should_continue session_id session)).outcome with r₀ | r₀
    · -- primary raised r₀ : PyError
      rw [hout] at hbs
      by_cases htr : is_transient (errString r₀) = true
      · rcases houtp : (proc (claude_session_id session)
            (should_continue session_id session)).outcome with e₂ | rp
        · -- secondary raised too: call propagates an error, contradicting hr
          rw [houtp] at hbp
          have hexec : execute_with_fallback ctx os (claude_session_id session)
              (should_continue session_id session) sdk proc count initialValState
              = (initialValState, count + 1, .error r₀) :=
            execute_sdk_err_transient ctx os _ _ sdk proc count initialValState
              initialValState initialValState r₀ (.error e₂) hu hbs htr hbp
          rw [run_command_of_err ctx os prompt session_id session sdk proc count
            (count + 1) initialValState r₀ hexec] at hr
          simp at hr
        · rw [houtp] at hbp
          have hexec : execute_with_fallback ctx os (claude_session_id session)
              (should_continue session_id session) sdk proc count initialValState
              = (initialValState, count + 1, .ok rp) :=
            execute_sdk_err_transient ctx os _ _ sdk proc count initialValState
              initialValState initialValState r₀ (.ok rp) hu hbs htr hbp
          exact ⟨rp, Or.inr rfl,
            run_command_frame_of_exec_ok ctx os prompt session_id session sdk
              proc count (count + 1) initialValState rp r' hexec rfl hr⟩
      · have htr' : is_transient (errString r₀) = false := by
          rcases hb : is_transient (errString r₀) with _ | _
          · rfl
          · exact absurd hb htr
        have hexec := execute_sdk_err_fatal ctx os _ _ sdk proc count
          initialValState initialValState r₀ hu hbs htr'
        rw [run_command_of_err ctx os prompt session_id session sdk proc count
          count initialValState r₀ hexec] at hr
        simp at hr
    · -- primary returned r₀ : ClaudeResponse
      rw [hout] at hbs
      have hexec := execute_sdk_ok ctx os _ _ sdk proc count initialValState
        initialValState r₀ hu hbs
      exact ⟨r₀, Or.inl rfl,
        run_command_frame_of_exec_ok ctx os prompt session_id session sdk proc
          count 0 initialValState r₀ r' hexec rfl hr⟩
  · have hu' : ctx.cfg.use_sdk = false := by
      rcases hb : ctx.cfg.use_sdk with _ | _
      · rfl
      · exact absurd hb hu
    rcases houtp : (proc (claude_session_id session)
        (should_continue session_id session)).outcome with e₀ | rp
    · rw [houtp] at hbp
      have hexec := execute_no_sdk ctx os _ _ sdk proc count initialValState
        initialValState (.error e₀) hu' hbp
      rw [run_command_of_err ctx os prompt session_id session sdk proc count
        count initialValState e₀ hexec] at hr
      simp at hr
    · rw [houtp] at hbp
      have hexec := execute_no_sdk ctx os _ _ sdk proc count initialValState
        initialValState (.ok rp) hu' hbp
      exact ⟨rp, Or.inr rfl,
        run_command_frame_of_exec_ok ctx os prompt session_id session sdk proc
          count count initialValState rp r' hexec rfl hr⟩

theorem C10_response_frame_witness :
    ∃ r, ((okBackend respR (claude_session_id contSession)
            (should_continue (some "s1") contSession)).outcome = .ok r
        ∨ (okBackend respR (claude_session_id contSession)
            (should_continue (some "s1") contSession)).outcome = .ok r)
      ∧ respR.content = r.content ∧ respR.cost = r.cost
      ∧ respR.duration_ms = r.duration_ms ∧ respR.num_turns = r.num_turns
      ∧ respR.is_error = r.is_error ∧ respR.error_type = r.error_type :=
  C10_response_frame ⟨⟨false, none⟩, okValidator, "/w", 7, false⟩ none "p"
    (some "s1") contSession (okBackend respR) (okBackend respR) 0 respR
    (by intro u hu; simp [okBackend] at hu) rfl

/-- C2: for every `run_command` call in which only non-critical tools are
denied (so no denial raises) and the backend returns successfully, the
returned response has `is_error = true` and
`error_type = "tool_validation_failed"`; if any denial reason matched the
allow-list-violation marker `"Tool not allowed:"`, the content names every
blocked tool, otherwise the content is the generic validation-failure message
listing the raw denial reasons.  Denial reasons are spec-modelled in the shape
the repository's tool monitor produces: an allow-list denial reads
`"Tool not allowed: <name>"`. -/
theorem C2_deferred_denial (ctx : CallCtx) (os : Option OnStreamCb)
    (prompt : String) (session_id : Option String) (session : Session)
    (sdk proc : Backend) (count cnt : Nat) (st : ValState)
    (resp : ClaudeResponse)
    (hexec : execute_with_fallback ctx os (claude_session_id session)
        (should_continue session_id session) sdk proc count initialValState
        = (st, cnt, .ok resp))
    (hnv : st.tools_validated = false)
    (hwf : ∀ e ∈ st.validation_errors, pyIn "Tool not allowed:" e = true →
      ∃ nm, e = "Tool not allowed: " ++ nm
        ∧ pyIn "Tool not allowed:" nm = false) :
    ∃ (r' : ClaudeResponse) (blocked : List String),
      (run_command ctx os prompt session_id session sdk proc count).2.2 = .ok r'
      ∧ extract_blocked_tools st.validation_errors = .ok blocked
      ∧ r'.is_error = true
      ∧ r'.error_type = some "tool_validation_failed"
      ∧ (∀ e ∈ st.validation_errors, pyIn "Tool not allowed:" e = true →
          ∃ nm, nm ∈ blocked ∧ e = "Tool not allowed: " ++ nm)
      ∧ (blocked ≠ [] → ∀ nm ∈ blocked, pyIn nm r'.content = true)
      ∧ (blocked = [] →
          r'.content = generic_validation_message st.validation_errors) := by
  obtain ⟨blocked, hbl, hmem, hcov, hemp⟩ := extract_spec st.validation_errors hwf
  have hrc := run_command_of_ok ctx os prompt session_id session sdk proc count
    cnt st resp hexec
  by_cases hb : blocked = []
  · have happ : apply_validation ctx.cfg st resp
        = .ok ⟨generic_validation_message st.validation_errors, resp.session_id,
            resp.cost, resp.duration_ms, resp.num_turns, true,
            some "tool_validation_failed"⟩ := by
      unfold apply_validation
      rw [hnv]
      simp only [Bool.false_eq_true, if_false]
      rw [hbl]
      simp [hb]
    refine ⟨⟨generic_validation_message st.validation_errors,
        (if resp.session_id != "" then resp.session_id else session.session_id),
        resp.cost, resp.duration_ms, resp.num_turns, true,
        some "tool_validation_failed"⟩,
      blocked, ?_, hbl, rfl, rfl, hcov, ?_, ?_⟩
    · rw [hrc, happ]
    · intro hne
      exact absurd hb hne
    · intro _
      rfl
  · have happ : apply_validation ctx.cfg st resp
        = .ok ⟨blocked_tools_message blocked
              (ctx.cfg.claude_allowed_tools.getD []), resp.session_id,
            resp.cost, resp.duration_ms, resp.num_turns, true,
            some "tool_validation_failed"⟩ := by
      unfold apply_validation
      rw [hnv]
      simp only [Bool.false_eq_true, if_false]
      rw [hbl]
      simp [hb]
    refine ⟨⟨blocked_tools_message blocked (ctx.cfg.claude_allowed_tools.getD []),
        (if resp.session_id != "" then resp.session_id else session.session_id),
        resp.cost, resp.duration_ms, resp.num_turns, true,
        some "tool_validation_failed"⟩,
      blocked, ?_, hbl, rfl, rfl, hcov, ?_, ?_⟩
    · rw [hrc, happ]
    · intro _ nm hnm
      exact blocked_message_contains blocked _ nm hnm
    · intro h0
      exact absurd h0 hb

theorem C2_deferred_denial_witness :
    ∃ (r' : ClaudeResponse) (blocked : List String),
      (run_command ⟨⟨false, some ["Read", "Write"]⟩, denyBashValidator, "/w", 7, false⟩
          none "p" (some "s1") contSession (okBackend respR)
          (streamBackend [bashUpdate] (.ok respR)) 0).2.2 = .ok r'
      ∧ extract_blocked_tools ["Tool not allowed: Bash"] = .ok blocked
      ∧ r'.is_error = true
      ∧ r'.error_type = some "tool_validation_failed"
      ∧ (∀ e ∈ ["Tool not allowed: Bash"], pyIn "Tool not allowed:" e = true →
          ∃ nm, nm ∈ blocked ∧ e = "Tool not allowed: " ++ nm)
      ∧ (blocked ≠ [] → ∀ nm ∈ blocked, pyIn nm r'.content = true)
      ∧ (blocked = [] →
          r'.content = generic_validation_message ["Tool not allowed: Bash"]) := by
  refine C2_deferred_denial
    ⟨⟨false, some ["Read", "Write"]⟩, denyBashValidator, "/w", 7, false⟩
    none "p" (some "s1") contSession (okBackend respR)
    (streamBackend [bashUpdate] (.ok respR)) 0 0
    ⟨false, ["Tool not allowed: Bash"], ["Bash"]⟩ respR rfl rfl ?_
  intro e he hm
  have he' : e = "Tool not allowed: Bash" := by
    simpa using he
  subst he'
  exact ⟨"Bash", by decide, by decide⟩

/-- C1 (amended): when the validator denies a tool in the critical set, the
stream interposer raises a structured `ClaudeToolValidationError` immediately
at that denial, carrying the accumulated blocked-tool list and the configured
allow-list; `run_command` then raises that error before returning any
`Response` provided the composed error text does not itself match the
transient-failure patterns of the fallback classifier (when the SDK channel is
the primary), and unconditionally when the subprocess channel is the primary.
(Without that proviso the claim fails: see the counterexample, where the
classifier misreads the validation error as transient and the secondary
attempt produces a `Response`.) -/
theorem C1_critical_denial_raises (ctx : CallCtx) (os : Option OnStreamCb)
    (prompt : String) (session_id : Option String) (session : Session)
    (sdk proc : Backend) (count : Nat) :
    (∀ (st : ValState) (tc : ToolCall),
      (ctx.validator tc.name tc.input ctx.working_directory ctx.user_id).1 = false →
      tc.name ∈ critical_tools →
      ∃ st' : ValState, handle_tool_call ctx st tc
        = (st', some (PyError.toolValidation
            (create_tool_error_message st'.blocked_tools
              (ctx.cfg.claude_allowed_tools.getD [])
              (get_admin_instructions ctx.env_file_exists st'.blocked_tools))
            st'.blocked_tools (ctx.cfg.claude_allowed_tools.getD []))))
  ∧ (∀ (st1 : ValState) (e : PyError),
      ctx.cfg.use_sdk = true →
      run_stream ctx os initialValState
          (sdk (claude_session_id session)
            (should_continue session_id session)).updates = (st1, some e) →
      is_transient (errString e) = false →
      (run_command ctx os prompt session_id session sdk proc count).2.2
          = .error e
        ∧ ∃ msg, e = PyError.toolValidation msg st1.blocked_tools
            (ctx.cfg.claude_allowed_tools.getD []))
  ∧ (∀ (st1 : ValState) (e : PyError),
      ctx.cfg.use_sdk = false →
      run_stream ctx os initialValState
          (proc (claude_session_id session)
            (should_continue session_id session)).updates = (st1, some e) →
      (run_command ctx os prompt session_id session sdk proc count).2.2
          = .error e
        ∧ ∃ msg, e = PyError.toolValidation msg st1.blocked_tools
            (ctx.cfg.claude_allowed_tools.getD [])) := by
  refine ⟨?_, ?_, ?_⟩
  · intro st tc hval hcrit
    unfold handle_tool_call
    simp only [hval, Bool.false_eq_true, if_false]
    rw [if_pos hcrit]
    exact ⟨_, rfl⟩
  · intro st1 e husesdk hstream htrans
    have hrb : run_backend ctx os initialValState
        (sdk (claude_session_id session) (should_continue session_id session))
        = (st1, .error e) := by
      unfold run_backend
      rw [hstream]
    have hexec := execute_sdk_err_fatal ctx os _ _ sdk proc count
      initialValState st1 e husesdk hrb htrans
    refine ⟨?_, ?_⟩
    · rw [run_command_of_err ctx os prompt session_id session sdk proc count
        count st1 e hexec]
    · exact ⟨_, run_stream_raise ctx os _ initialValState st1 e hstream⟩
  · intro st1 e husesdk hstream
    have hrb : run_backend ctx os initialValState
        (proc (claude_session_id session) (should_continue session_id session))
        = (st1, .error e) := by
      unfold run_backend
      rw [hstream]
    have hexec := execute_no_sdk ctx os _ _ sdk proc count
      initialValState st1 (.error e) husesdk hrb
    refine ⟨?_, ?_⟩
    · rw [run_command_of_err ctx os prompt session_id session sdk proc count
        count st1 e hexec]
    · exact ⟨_, run_stream_raise ctx os _ initialValState st1 e hstream⟩

/-- The configuration of the C1 counterexample: SDK channel enabled and a
configured allow-list containing the string `"TaskGroup"`, which the fallback
classifier's substring patterns also match. -/
def cexCtx : CallCtx := ⟨⟨true, some ["TaskGroup"]⟩, denyReadValidator, "/w", 7, false⟩

/-- The response the secondary backend returns in the C1 counterexample. -/
def cexResp : ClaudeResponse := ⟨"done", "sess-xyz", 0, 0, 1, false, none⟩

/-- C1 counterexample: a concrete `run_command` call in which the validator
denies the critical tool `Read` during the primary stream, yet `run_command`
RETURNS a `Response` instead of raising: the raised validation error's text
quotes the configured allow-list (here containing `"TaskGroup"`), the
fallback classifier therefore misreads it as a transient SDK failure, and the
secondary backend's successful result is returned (with the deferred-denial
mutation applied). -/
theorem C1_counterexample_returns_response :
    ("Read" ∈ critical_tools
      ∧ (cexCtx.validator "Read" [] cexCtx.working_directory cexCtx.user_id).1
          = false
      ∧ cexCtx.cfg.use_sdk = true)
  ∧ ∃ r, (run_command cexCtx none "p" (some "s1") contSession
      (streamBackend [readUpdate] (.error (.other "unreached")))
      (okBackend cexResp) 0).2.2 = Except.ok r := by
  refine ⟨⟨by decide, by decide, rfl⟩, ?_⟩
  have hstream : run_stream cexCtx none initialValState [readUpdate]
      = (⟨false, ["Tool not allowed: Read"], ["Read"]⟩,
         some (.toolValidation
           (create_tool_error_message ["Read"] ["TaskGroup"]
             (get_admin_instructions false ["Read"]))
           ["Read"] ["TaskGroup"])) := rfl
  have hmsg : pyIn "TaskGroup"
      (create_tool_error_message ["Read"] ["TaskGroup"]
        (get_admin_instructions false ["Read"])) = true := by
    rw [pyIn_eq_true]
    have h1 : "TaskGroup".toList <:+:
        (if (["TaskGroup"] : List String) ≠ [] then
          pyJoin ", " ((["TaskGroup"] : List String).map
            (fun tool => "`" ++ tool ++ "`"))
        else "None").toList :=
      (by decide : "TaskGroup".toList <:+: "`TaskGroup`".toList)
    simp only [create_tool_error_message]
    refine h1.trans (pyJoin_mem_substring "\n" ?_)
    iterate 16 apply List.mem_cons_of_mem
    exact List.mem_cons_self _ _
  have htr : is_transient (errString
      (.toolValidation
        (create_tool_error_message ["Read"] ["TaskGroup"]
          (get_admin_instructions false ["Read"]))
        ["Read"] ["TaskGroup"])) = true := by
    show is_transient (create_tool_error_message ["Read"] ["TaskGroup"]
      (get_admin_instructions false ["Read"])) = true
    unfold is_transient
    rw [hmsg]
    simp
  have hrb1 : run_backend cexCtx none initialValState
      ((streamBackend [readUpdate] (.error (.other "unreached")))
        (claude_session_id contSession) (should_continue (some "s1") contSession))
      = (⟨false, ["Tool not allowed: Read"], ["Read"]⟩,
         .error (.toolValidation
           (create_tool_error_message ["Read"] ["TaskGroup"]
             (get_admin_instructions false ["Read"]))
           ["Read"] ["TaskGroup"])) := by
    have hstream' : run_stream cexCtx none initialValState
        ((streamBackend [readUpdate] (.error (.other "unreached")))
          (claude_session_id contSession)
          (should_continue (some "s1") contSession)).updates
        = (⟨false, ["Tool not allowed: Read"], ["Read"]⟩,
           some (.toolValidation
             (create_tool_error_message ["Read"] ["TaskGroup"]
               (get_admin_instructions false ["Read"]))
             ["Read"] ["TaskGroup"])) := hstream
    unfold run_backend
    rw [hstream']
  have hrb2 : run_backend cexCtx none
      (⟨false, ["Tool not allowed: Read"], ["Read"]⟩ : ValState)
      ((okBackend cexResp) (claude_session_id contSession)
        (should_continue (some "s1") contSession))
      = (⟨false, ["Tool not allowed: Read"], ["Read"]⟩, .ok cexResp) := rfl
  have hexec : execute_with_fallback cexCtx none (claude_session_id contSession)
      (should_continue (some "s1") contSession)
      (streamBackend [readUpdate] (.error (.other "unreached")))
      (okBackend cexResp) 0 initialValState
      = (⟨false, ["Tool not allowed: Read"], ["Read"]⟩, 1, .ok cexResp) :=
    execute_sdk_err_transient cexCtx none _ _ _ _ 0 initialValState
      ⟨false, ["Tool not allowed: Read"], ["Read"]⟩
      ⟨false, ["Tool not allowed: Read"], ["Read"]⟩
      (.toolValidation
        (create_tool_error_message ["Read"] ["TaskGroup"]
          (get_admin_instructions false ["Read"]))
        ["Read"] ["TaskGroup"])
      (.ok cexResp) rfl hrb1 htr hrb2
  have hrc := run_command_of_ok cexCtx none "p" (some "s1") contSession
    (streamBackend [readUpdate] (.error (.other "unreached")))
    (okBackend cexResp) 0 1 ⟨false, ["Tool not allowed: Read"], ["Read"]⟩
    cexResp hexec
  have happ : apply_validation cexCtx.cfg
      (⟨false, ["Tool not allowed: Read"], ["Read"]⟩ : ValState) cexResp
      = .ok ⟨blocked_tools_message ["Read"] ["TaskGroup"], "sess-xyz", 0, 0, 1,
          true, some "tool_validation_failed"⟩ := rfl
  refine ⟨⟨blocked_tools_message ["Read"] ["TaskGroup"], "sess-xyz", 0, 0, 1,
    true, some "tool_validation_failed"⟩, ?_⟩
  rw [hrc, happ]
  rfl
